import Mathlib

/-!
Shallow embedding of the SparkFun MicroPressure driver
(src/SparkFun_MicroPressure.h, src/SparkFun_MicroPressure.cpp).

Machine integers: `uint32_t` values are `Nat` reduced mod `2^32` at each
operation that can wrap; `int32_t(x)` reinterpretation is `toInt32`.
Floating-point fields (`float`) are modelled as exact rationals `ℚ`
(the linear calibration arithmetic idealised without rounding; division
by zero yields 0 in `ℚ` where the C code would produce inf/NaN).
The I2C bus is external: `readPressure` is modelled as the pure function
of the bytes delivered by the bus, and the status-poll wait loop as a
fuel-indexed recursion over the stream of polled status bytes.
-/

namespace MPR

/-- 2^32, the modulus of `uint32_t` arithmetic. -/
def u32 : Nat := 4294967296

/-- Reinterpretation of a `uint32_t` bit pattern as `int32_t`
(the cast `int32_t(x)` on line 200 of the .cpp). -/
def toInt32 (n : Nat) : Int :=
  if n % u32 < 2147483648 then ((n % u32 : Nat) : Int)
  else ((n % u32 : Nat) : Int) - (u32 : Int)

/-- The `Pressure_Units` enum of SparkFun_MicroPressure.h. -/
inductive Pressure_Units where
  | PSI
  | PA
  | KPA
  | TORR
  | INHG
  | ATM
  | BAR
  | RAW
deriving DecidableEq, Repr

/-- `#define BUSY_FLAG 0x20` -/
def BUSY_FLAG : Nat := 0x20

/-- `#define INTEGRITY_FLAG 0x04` -/
def INTEGRITY_FLAG : Nat := 0x04

/-- `#define MATH_SAT_FLAG 0x01` -/
def MATH_SAT_FLAG : Nat := 0x01

/-- The fields of class `SparkFun_MicroPressure` relevant to the
calibration/conversion model (bus handle and address omitted: they are
the external transport). -/
structure MPRState where
  eoc : Int
  rst : Int
  transfer_function : Char
  minPsi : ℚ
  maxPsi : ℚ
  deltaPsi : ℚ
  calFactor : ℚ
  minCounts : Nat
  maxCounts : Nat
  deltaCounts : Nat
deriving Repr

/-- The constructor `SparkFun_MicroPressure::SparkFun_MicroPressure`
(.cpp lines 22-69): the `switch` on the transfer function selects
`minCounts`/`maxCounts`, then `deltaCounts`, `deltaPsi` and `calFactor`
are derived.  `_deltaCounts = _maxCounts - _minCounts` is `uint32_t`
subtraction, hence the `% u32`. -/
def mkMicroPressure (eoc_pin rst_pin : Int) (minimumPSI maximumPSI : ℚ)
    (transfer_function : Char) : MPRState :=
  let counts : Nat × Nat :=
    if transfer_function = 'A' then (1677722, 15099494)
    else if transfer_function = 'B' then (419430, 3774874)
    else if transfer_function = 'C' then (3355443, 13421773)
    else (1677722, 15099494)
  let dC : Nat := (counts.2 + u32 - counts.1) % u32
  { eoc := eoc_pin
    rst := rst_pin
    transfer_function := transfer_function
    minPsi := minimumPSI
    maxPsi := maximumPSI
    deltaPsi := maximumPSI - minimumPSI
    calFactor := (maximumPSI - minimumPSI) / (dC : ℚ)
    minCounts := counts.1
    maxCounts := counts.2
    deltaCounts := dC }

/-- `SparkFun_MicroPressure::setZero` (.cpp lines 118-123):
`_minCounts = zero; _deltaCounts = _maxCounts - _minCounts;
_calFactor = _deltaPsi / float(_deltaCounts);`.
The parameter is `uint32_t`, hence `zero % u32`; the subtraction is
`uint32_t` arithmetic. -/
def setZero (s : MPRState) (zeroCounts : Nat) : MPRState :=
  let z : Nat := zeroCounts % u32
  let dC : Nat := (s.maxCounts + u32 - z) % u32
  { s with minCounts := z, deltaCounts := dC, calFactor := s.deltaPsi / (dC : ℚ) }

/-- `SparkFun_MicroPressure::setCalFac` (.cpp lines 131-136):
`_calFactor = calFac; _deltaPsi = _calFactor * float(_deltaCounts);
_maxPsi = _minPsi + _deltaPsi;`. -/
def setCalFac (s : MPRState) (calFac : ℚ) : MPRState :=
  { s with
    calFactor := calFac
    deltaPsi := calFac * (s.deltaCounts : ℚ)
    maxPsi := s.minPsi + calFac * (s.deltaCounts : ℚ) }

/-- Assembly of the 24-bit reading from the three count bytes
(.cpp lines 187-192): `reading |= read(); if(i != 2) reading <<= 8;`.
Bus bytes are reduced mod 256 (`uint8_t`). -/
def assembleReading (b1 b2 b3 : Nat) : Nat :=
  let r1 : Nat := ((0 ||| (b1 % 256)) <<< 8)
  let r2 : Nat := ((r1 ||| (b2 % 256)) <<< 8)
  r2 ||| (b3 % 256)

/-- The counts-to-pressure conversion of `readPressure` (.cpp line 200):
`pressure = ((float(int32_t(reading) - int32_t(_minCounts))) * _calFactor) + _minPsi;`. -/
def toBasePressure (s : MPRState) (reading : Nat) : ℚ :=
  ((toInt32 reading - toInt32 s.minCounts : Int) : ℚ) * s.calFactor + s.minPsi

/-- `SparkFun_MicroPressure::readPressure` after the readiness wait
(.cpp lines 176-211), as a pure function of the four bytes delivered by
`requestFrom(_address, 4)`: the status byte and the three count bytes.
`none` models the `return NAN` branch. -/
def readPressureFrom (s : MPRState) (status b1 b2 b3 : Nat)
    (units : Pressure_Units) : Option ℚ :=
  let st : Nat := status % 256
  if st &&& INTEGRITY_FLAG ≠ 0 ∨ st &&& MATH_SAT_FLAG ≠ 0 then
    none
  else
    let reading : Nat := assembleReading b1 b2 b3
    if units = Pressure_Units.RAW then
      some (reading : ℚ)
    else
      let pressure : ℚ := toBasePressure s reading
      if units = Pressure_Units.PSI then some pressure
      else if units = Pressure_Units.PA then some (pressure * 6894.7573)
      else if units = Pressure_Units.KPA then some (pressure * 6.89476)
      else if units = Pressure_Units.TORR then some (pressure * 51.7149)
      else if units = Pressure_Units.INHG then some (pressure * 2.03602)
      else if units = Pressure_Units.ATM then some (pressure * 0.06805)
      else if units = Pressure_Units.BAR then some (pressure * 0.06895)
      else some pressure

/-- The guard of the status-poll wait loop (.cpp line 169):
`while((status & BUSY_FLAG) && (status != 0xFF))`. -/
def pollContinue (status : Nat) : Bool :=
  (((status % 256) &&& BUSY_FLAG) != 0) && ((status % 256) != 0xFF)

/-- The status-poll wait loop of `readPressure` (.cpp lines 166-174),
fuel-indexed over the stream `f` of status bytes returned by successive
`readStatus()` calls; returns the status byte that ended the loop, or
`none` if the fuel ran out while the guard still held. -/
def pollWait (f : Nat → Nat) : Nat → Option Nat
  | 0 => none
  | fuel + 1 =>
    if pollContinue (f 0) then pollWait (fun i => f (i + 1)) fuel
    else some (f 0 % 256)

/-- The states of the driver reachable from construction by any sequence
of `setZero` and `setCalFac` calls. -/
inductive Reachable : MPRState → Prop
  | init (eoc_pin rst_pin : Int) (minimumPSI maximumPSI : ℚ) (tf : Char) :
      Reachable (mkMicroPressure eoc_pin rst_pin minimumPSI maximumPSI tf)
  | zero (s : MPRState) (z : Nat) : Reachable s → Reachable (setZero s z)
  | cal (s : MPRState) (f : ℚ) : Reachable s → Reachable (setCalFac s f)

end MPR

namespace MPR

/-! ### Helper lemmas -/

theorem toInt32_of_lt (n : Nat) (h : n < 2147483648) : toInt32 n = (n : Int) := by
  have hu : n % u32 = n := Nat.mod_eq_of_lt (by simp only [u32]; omega)
  simp only [toInt32, hu, if_pos h]

theorem assembleReading_lt (b1 b2 b3 : Nat) : assembleReading b1 b2 b3 < 16777216 := by
  have e1 : b1 % 256 < 256 := Nat.mod_lt _ (by omega)
  have e2 : b2 % 256 < 256 := Nat.mod_lt _ (by omega)
  have e3 : b3 % 256 < 256 := Nat.mod_lt _ (by omega)
  simp only [assembleReading, Nat.shiftLeft_eq, Nat.zero_or]
  apply Nat.or_lt_two_pow (n := 24)
  · have h16 : (b1 % 256) * 2 ^ 8 ||| b2 % 256 < 65536 := by
      apply Nat.or_lt_two_pow (n := 16) <;> omega
    omega
  · omega

theorem pollWait_none (fuel : Nat) : ∀ f : Nat → Nat,
    (∀ i, i < fuel → pollContinue (f i) = true) → pollWait f fuel = none := by
  induction fuel with
  | zero =>
    intro f _
    rfl
  | succ k ih =>
    intro f hc
    simp only [pollWait, hc 0 (by omega), if_true]
    exact ih (fun i => f (i + 1)) (fun i hi => hc (i + 1) (by omega))

theorem pollWait_stop (n : Nat) : ∀ f : Nat → Nat,
    (∀ i, i < n → pollContinue (f i) = true) → pollContinue (f n) = false →
    pollWait f (n + 1) = some (f n % 256) := by
  induction n with
  | zero =>
    intro f _ hstop
    simp [pollWait, hstop]
  | succ k ih =>
    intro f hc hstop
    simp only [pollWait, hc 0 (by omega), if_true]
    exact ih (fun i => f (i + 1)) (fun i hi => hc (i + 1) (by omega)) hstop

theorem reachable_cal_consistent (s : MPRState) (h : Reachable s) :
    s.maxPsi = s.minPsi + s.deltaPsi ∧
    (s.deltaCounts ≠ 0 → s.calFactor = s.deltaPsi / (s.deltaCounts : ℚ)) := by
  induction h with
  | init eoc_pin rst_pin minP maxP tf =>
    constructor
    · simp [mkMicroPressure]
    · intro _
      rfl
  | zero s z _ ih =>
    exact ⟨ih.1, fun _ => rfl⟩
  | cal s f _ ih =>
    refine ⟨rfl, fun hdc => ?_⟩
    have hdcQ : ((s.deltaCounts : Nat) : ℚ) ≠ 0 := Nat.cast_ne_zero.mpr hdc
    show f = f * (s.deltaCounts : ℚ) / (s.deltaCounts : ℚ)
    field_simp

/-! ### Claim theorems -/

/-- Claim C1: for every raw 24-bit count read with a non-RAW unit, the base
pressure equals `(float(signed(r) - signed(minCounts)) * scaleFactor) + minPressure`,
and (the assembled count being 24-bit, with `minCounts` in signed range and a
positive scale factor) every count below `minCounts` yields a pressure strictly
below `minPressure` instead of an unsigned-wraparound value. -/
theorem C1_readPressure_base_formula (s : MPRState) (status b1 b2 b3 : Nat)
    (hlt : status < 256)
    (h4 : status &&& INTEGRITY_FLAG = 0) (h1 : status &&& MATH_SAT_FLAG = 0) :
    readPressureFrom s status b1 b2 b3 Pressure_Units.PSI =
      some (((toInt32 (assembleReading b1 b2 b3) - toInt32 s.minCounts : Int) : ℚ) *
        s.calFactor + s.minPsi) ∧
    assembleReading b1 b2 b3 < 16777216 ∧
    (∀ r : Nat, r < 16777216 → s.minCounts < 2147483648 → 0 < s.calFactor →
      r < s.minCounts → toBasePressure s r < s.minPsi) := by
  refine ⟨?_, assembleReading_lt b1 b2 b3, ?_⟩
  · have hm : status % 256 = status := Nat.mod_eq_of_lt hlt
    have hflag : ¬(status % 256 &&& INTEGRITY_FLAG ≠ 0 ∨
        status % 256 &&& MATH_SAT_FLAG ≠ 0) := by
      simp [hm, h4, h1]
    simp [readPressureFrom, hflag, toBasePressure]
  · intro r hr hmc hcal hlt2
    have hr32 : toInt32 r = (r : Int) := toInt32_of_lt r (by omega)
    have hm32 : toInt32 s.minCounts = (s.minCounts : Int) := toInt32_of_lt _ hmc
    unfold toBasePressure
    rw [hr32, hm32]
    have hq : (r : ℚ) < (s.minCounts : ℚ) := by exact_mod_cast hlt2
    have hneg : (((r : Int) - (s.minCounts : Int) : Int) : ℚ) < 0 := by
      push_cast
      linarith
    nlinarith [mul_neg_of_neg_of_pos hneg hcal]

/-- Witness for C1 at the default transfer-function-A state with a zero raw
count (below `minCounts = 1677722`). -/
theorem C1_readPressure_base_formula_witness :
    readPressureFrom (mkMicroPressure (-1) (-1) 0 25 'A') 0 0 0 0 Pressure_Units.PSI =
      some (((toInt32 (assembleReading 0 0 0) -
        toInt32 (mkMicroPressure (-1) (-1) 0 25 'A').minCounts : Int) : ℚ) *
        (mkMicroPressure (-1) (-1) 0 25 'A').calFactor +
        (mkMicroPressure (-1) (-1) 0 25 'A').minPsi) ∧
    toBasePressure (mkMicroPressure (-1) (-1) 0 25 'A') 0 <
      (mkMicroPressure (-1) (-1) 0 25 'A').minPsi := by
  have h := C1_readPressure_base_formula (mkMicroPressure (-1) (-1) 0 25 'A') 0 0 0 0
    (by omega) (by decide) (by decide)
  refine ⟨h.1, h.2.2 0 (by omega) ?_ ?_ ?_⟩
  · norm_num [mkMicroPressure]
  · norm_num [mkMicroPressure, u32]
  · norm_num [mkMicroPressure]

end MPR

namespace MPR

/-- Claim C2: the constructor sets the calibration constants exactly per the
lookup table — selector A gives `minCounts = 1677722`, `maxCounts = 15099494`;
B gives `419430`/`3774874`; C gives `3355443`/`13421773`; and every other
selector defaults to the A constants — then derives `deltaCounts`,
`deltaPressure` and `scaleFactor = deltaPressure/deltaCounts`. -/
theorem C2_constructor_lookup (eoc_pin rst_pin : Int) (minP maxP : ℚ) (tf : Char)
    (hA : tf ≠ 'A') (hB : tf ≠ 'B') (hC : tf ≠ 'C') :
    (mkMicroPressure eoc_pin rst_pin minP maxP 'A').minCounts = 1677722 ∧
    (mkMicroPressure eoc_pin rst_pin minP maxP 'A').maxCounts = 15099494 ∧
    (mkMicroPressure eoc_pin rst_pin minP maxP 'B').minCounts = 419430 ∧
    (mkMicroPressure eoc_pin rst_pin minP maxP 'B').maxCounts = 3774874 ∧
    (mkMicroPressure eoc_pin rst_pin minP maxP 'C').minCounts = 3355443 ∧
    (mkMicroPressure eoc_pin rst_pin minP maxP 'C').maxCounts = 13421773 ∧
    (mkMicroPressure eoc_pin rst_pin minP maxP tf).minCounts = 1677722 ∧
    (mkMicroPressure eoc_pin rst_pin minP maxP tf).maxCounts = 15099494 ∧
    (mkMicroPressure eoc_pin rst_pin minP maxP 'A').deltaCounts =
      15099494 - 1677722 ∧
    (mkMicroPressure eoc_pin rst_pin minP maxP 'B').deltaCounts =
      3774874 - 419430 ∧
    (mkMicroPressure eoc_pin rst_pin minP maxP 'C').deltaCounts =
      13421773 - 3355443 ∧
    (mkMicroPressure eoc_pin rst_pin minP maxP tf).deltaCounts =
      (mkMicroPressure eoc_pin rst_pin minP maxP tf).maxCounts -
      (mkMicroPressure eoc_pin rst_pin minP maxP tf).minCounts ∧
    (mkMicroPressure eoc_pin rst_pin minP maxP tf).deltaPsi = maxP - minP ∧
    (mkMicroPressure eoc_pin rst_pin minP maxP tf).calFactor =
      (mkMicroPressure eoc_pin rst_pin minP maxP tf).deltaPsi /
      ((mkMicroPressure eoc_pin rst_pin minP maxP tf).deltaCounts : ℚ) := by
  refine ⟨rfl, rfl, rfl, rfl, rfl, rfl, ?_, ?_, rfl, rfl, rfl, ?_, rfl, rfl⟩ <;>
    (simp only [mkMicroPressure, if_neg hA, if_neg hB, if_neg hC]; try norm_num [u32])

/-- Witness for C2 at the concrete out-of-table selector Z. -/
theorem C2_constructor_lookup_witness :
    (mkMicroPressure (-1) (-1) 0 25 'Z').minCounts = 1677722 ∧
    (mkMicroPressure (-1) (-1) 0 25 'Z').maxCounts = 15099494 := by
  have h := C2_constructor_lookup (-1) (-1) 0 25 'Z' (by decide) (by decide) (by decide)
  exact ⟨h.2.2.2.2.2.2.1, h.2.2.2.2.2.2.2.1⟩

/-- Claim C3 (amended): in every calibration state with nonzero `deltaCounts`
reachable from construction by `setZero`/`setCalFac` sequences, converting
`minCounts` yields `minPressure`; and when additionally the signed endpoint
difference agrees with the stored `deltaCounts` (i.e. the `uint32_t`
subtraction in the last recomputation did not wrap relative to the `int32_t`
interpretation used by the conversion, as holds in particular whenever
`minCounts ≤ maxCounts < 2^31`), converting `maxCounts` yields `maxPressure`. -/
theorem C3_endpoints_roundtrip_amended (s : MPRState) (h : Reachable s)
    (hdc : s.deltaCounts ≠ 0) :
    toBasePressure s s.minCounts = s.minPsi ∧
    (toInt32 s.maxCounts - toInt32 s.minCounts = (s.deltaCounts : Int) →
      toBasePressure s s.maxCounts = s.maxPsi) := by
  constructor
  · unfold toBasePressure
    simp
  · intro hnw
    have hinv := reachable_cal_consistent s h
    have hcal := hinv.2 hdc
    have hdcQ : ((s.deltaCounts : Nat) : ℚ) ≠ 0 := Nat.cast_ne_zero.mpr hdc
    unfold toBasePressure
    rw [hnw, hcal]
    push_cast
    rw [mul_div_cancel₀ _ hdcQ, hinv.1]
    ring

/-- Witness for C3 (amended) at the freshly constructed transfer-function-A
state. -/
theorem C3_endpoints_roundtrip_witness :
    toBasePressure (mkMicroPressure (-1) (-1) 0 25 'A')
      (mkMicroPressure (-1) (-1) 0 25 'A').minCounts =
      (mkMicroPressure (-1) (-1) 0 25 'A').minPsi ∧
    toBasePressure (mkMicroPressure (-1) (-1) 0 25 'A')
      (mkMicroPressure (-1) (-1) 0 25 'A').maxCounts =
      (mkMicroPressure (-1) (-1) 0 25 'A').maxPsi := by
  have h := C3_endpoints_roundtrip_amended (mkMicroPressure (-1) (-1) 0 25 'A')
    (Reachable.init (-1) (-1) 0 25 'A') (by norm_num [mkMicroPressure, u32])
  exact ⟨h.1, h.2 (by norm_num [mkMicroPressure, toInt32, u32])⟩

/-- Counterexample to C3 as stated: the state reached by constructing with the
default transfer function A and pressure range 0..25 and then calling
`setZero(15099495)` (one count above `maxCounts`) has nonzero `deltaCounts`
(namely 2^32 - 1, by unsigned wraparound), yet converting `maxCounts` does not
reproduce `maxPressure` (it yields -25/4294967295 instead of 25). -/
theorem C3_endpoints_counterexample :
    Reachable (setZero (mkMicroPressure (-1) (-1) 0 25 'A') 15099495) ∧
    (setZero (mkMicroPressure (-1) (-1) 0 25 'A') 15099495).deltaCounts ≠ 0 ∧
    toBasePressure (setZero (mkMicroPressure (-1) (-1) 0 25 'A') 15099495)
        (setZero (mkMicroPressure (-1) (-1) 0 25 'A') 15099495).maxCounts ≠
      (setZero (mkMicroPressure (-1) (-1) 0 25 'A') 15099495).maxPsi := by
  refine ⟨Reachable.zero _ _ (Reachable.init (-1) (-1) 0 25 'A'), ?_, ?_⟩
  · norm_num [setZero, mkMicroPressure, u32]
  · norm_num [toBasePressure, setZero, mkMicroPressure, toInt32, u32]

/-- Claim C4: whenever the status byte of the 4-byte read has the
memory-integrity bit (bit 2) or the math-saturation bit (bit 0) set,
`readPressure` returns the NaN sentinel (`none`) regardless of the count bytes
and the unit; and when neither bit is set it returns a value — the NaN return
is the only error signal. -/
theorem C4_status_error_nan (s : MPRState) (status b1 b2 b3 : Nat)
    (units : Pressure_Units) (hlt : status < 256) :
    ((status &&& INTEGRITY_FLAG ≠ 0 ∨ status &&& MATH_SAT_FLAG ≠ 0) →
      readPressureFrom s status b1 b2 b3 units = none) ∧
    (status &&& INTEGRITY_FLAG = 0 → status &&& MATH_SAT_FLAG = 0 →
      (readPressureFrom s status b1 b2 b3 units).isSome = true) := by
  have hm : status % 256 = status := Nat.mod_eq_of_lt hlt
  constructor
  · intro h
    simp only [readPressureFrom, hm]
    rw [if_pos h]
  · intro h4 h1
    simp only [readPressureFrom, hm]
    rw [if_neg (by simp [h4, h1])]
    cases units <;> simp

/-- Witness for C4: a status byte with the integrity bit set (0x04) gives
`none`; a clear status byte (0x00) gives a value. -/
theorem C4_status_error_nan_witness :
    readPressureFrom (mkMicroPressure (-1) (-1) 0 25 'A') 4 7 7 7
      Pressure_Units.PSI = none ∧
    (readPressureFrom (mkMicroPressure (-1) (-1) 0 25 'A') 0 7 7 7
      Pressure_Units.PSI).isSome = true := by
  constructor
  · exact (C4_status_error_nan (mkMicroPressure (-1) (-1) 0 25 'A') 4 7 7 7
      Pressure_Units.PSI (by omega)).1 (Or.inl (by decide))
  · exact (C4_status_error_nan (mkMicroPressure (-1) (-1) 0 25 'A') 0 7 7 7
      Pressure_Units.PSI (by omega)).2 (by decide) (by decide)

end MPR

namespace MPR

/-- Claim C5: for a validated reading, each unit is a pure multiple of the base
PSI pressure with the exact table factor (PA 6894.7573, KPA 6.89476,
TORR 51.7149, INHG 2.03602, ATM 0.06805, BAR 0.06895), PSI is the base value
itself (the default/unspecified unit is the `units = PSI` default argument),
and RAW returns the raw 24-bit count as a number with no calibration applied. -/
theorem C5_unit_conversion (s : MPRState) (status b1 b2 b3 : Nat)
    (hlt : status < 256)
    (h4 : status &&& INTEGRITY_FLAG = 0) (h1 : status &&& MATH_SAT_FLAG = 0) :
    readPressureFrom s status b1 b2 b3 Pressure_Units.PSI =
      some (toBasePressure s (assembleReading b1 b2 b3)) ∧
    readPressureFrom s status b1 b2 b3 Pressure_Units.PA =
      some (toBasePressure s (assembleReading b1 b2 b3) * 6894.7573) ∧
    readPressureFrom s status b1 b2 b3 Pressure_Units.KPA =
      some (toBasePressure s (assembleReading b1 b2 b3) * 6.89476) ∧
    readPressureFrom s status b1 b2 b3 Pressure_Units.TORR =
      some (toBasePressure s (assembleReading b1 b2 b3) * 51.7149) ∧
    readPressureFrom s status b1 b2 b3 Pressure_Units.INHG =
      some (toBasePressure s (assembleReading b1 b2 b3) * 2.03602) ∧
    readPressureFrom s status b1 b2 b3 Pressure_Units.ATM =
      some (toBasePressure s (assembleReading b1 b2 b3) * 0.06805) ∧
    readPressureFrom s status b1 b2 b3 Pressure_Units.BAR =
      some (toBasePressure s (assembleReading b1 b2 b3) * 0.06895) ∧
    readPressureFrom s status b1 b2 b3 Pressure_Units.RAW =
      some ((assembleReading b1 b2 b3 : Nat) : ℚ) := by
  have hm : status % 256 = status := Nat.mod_eq_of_lt hlt
  have hflag : ¬(status % 256 &&& INTEGRITY_FLAG ≠ 0 ∨
      status % 256 &&& MATH_SAT_FLAG ≠ 0) := by
    simp [hm, h4, h1]
  refine ⟨?_, ?_, ?_, ?_, ?_, ?_, ?_, ?_⟩ <;> simp [readPressureFrom, hflag]

/-- Witness for C5 at a concrete clean read (status 0, count bytes 1,2,3). -/
theorem C5_unit_conversion_witness :
    readPressureFrom (mkMicroPressure (-1) (-1) 0 25 'A') 0 1 2 3 Pressure_Units.PA =
      some (toBasePressure (mkMicroPressure (-1) (-1) 0 25 'A')
        (assembleReading 1 2 3) * 6894.7573) ∧
    readPressureFrom (mkMicroPressure (-1) (-1) 0 25 'A') 0 1 2 3 Pressure_Units.RAW =
      some ((assembleReading 1 2 3 : Nat) : ℚ) := by
  have h := C5_unit_conversion (mkMicroPressure (-1) (-1) 0 25 'A') 0 1 2 3
    (by omega) (by decide) (by decide)
  exact ⟨h.2.1, h.2.2.2.2.2.2.2⟩

/-- Claim C6: `setZero(z)` sets `minCounts` to `z` and recomputes
`deltaCounts` (as the `uint32_t` difference `maxCounts - minCounts`, equal to
the exact difference whenever `z ≤ maxCounts`) and
`scaleFactor = deltaPressure/deltaCounts`, leaving `minPressure`,
`maxPressure`, `deltaPressure` and `maxCounts` unchanged. -/
theorem C6_setZero_frame (s : MPRState) (z : Nat) (hz : z < u32) :
    (setZero s z).minCounts = z ∧
    (setZero s z).maxCounts = s.maxCounts ∧
    (setZero s z).minPsi = s.minPsi ∧
    (setZero s z).maxPsi = s.maxPsi ∧
    (setZero s z).deltaPsi = s.deltaPsi ∧
    (setZero s z).deltaCounts = (s.maxCounts + u32 - z) % u32 ∧
    (z ≤ s.maxCounts → s.maxCounts < u32 →
      (setZero s z).deltaCounts = s.maxCounts - z) ∧
    (setZero s z).calFactor = s.deltaPsi / (((setZero s z).deltaCounts : Nat) : ℚ) := by
  have hm : z % u32 = z := Nat.mod_eq_of_lt hz
  refine ⟨?_, rfl, rfl, rfl, rfl, ?_, ?_, rfl⟩
  · simp [setZero, hm]
  · simp [setZero, hm]
  · intro h1 h2
    simp only [setZero, hm]
    have h3 : s.maxCounts + u32 - z = (s.maxCounts - z) + u32 := by omega
    rw [h3, Nat.add_mod_right, Nat.mod_eq_of_lt (by omega)]

/-- Witness for C6 at the default state with zero point 1700000. -/
theorem C6_setZero_frame_witness :
    (setZero (mkMicroPressure (-1) (-1) 0 25 'A') 1700000).minCounts = 1700000 ∧
    (setZero (mkMicroPressure (-1) (-1) 0 25 'A') 1700000).maxPsi =
      (mkMicroPressure (-1) (-1) 0 25 'A').maxPsi ∧
    (setZero (mkMicroPressure (-1) (-1) 0 25 'A') 1700000).deltaCounts =
      (mkMicroPressure (-1) (-1) 0 25 'A').maxCounts - 1700000 := by
  have h := C6_setZero_frame (mkMicroPressure (-1) (-1) 0 25 'A') 1700000
    (by norm_num [u32])
  exact ⟨h.1, h.2.2.2.1, h.2.2.2.2.2.2.1 (by decide) (by decide)⟩

/-- Claim C7: `setCalFac(f)` sets `scaleFactor` to `f`, recomputes
`deltaPressure = f * deltaCounts` and `maxPressure = minPressure +
deltaPressure`, leaving `minCounts`, `maxCounts`, `deltaCounts` and
`minPressure` unchanged. -/
theorem C7_setCalFac_frame (s : MPRState) (f : ℚ) :
    (setCalFac s f).calFactor = f ∧
    (setCalFac s f).deltaPsi = f * (s.deltaCounts : ℚ) ∧
    (setCalFac s f).maxPsi = s.minPsi + (setCalFac s f).deltaPsi ∧
    (setCalFac s f).minCounts = s.minCounts ∧
    (setCalFac s f).maxCounts = s.maxCounts ∧
    (setCalFac s f).deltaCounts = s.deltaCounts ∧
    (setCalFac s f).minPsi = s.minPsi :=
  ⟨rfl, rfl, rfl, rfl, rfl, rfl, rfl⟩

/-- Claim C8: in status-poll mode the wait loop keeps polling exactly while
the busy bit (0x20) is set and the byte is not 0xFF: if the first `n` polled
bytes all satisfy the loop guard and poll `n` does not, the loop performs
exactly `n + 1` status reads and stops there with that byte (it has not
terminated after any smaller number of reads), and the guard fails precisely
when the busy bit is clear or the byte equals the 0xFF sentinel. -/
theorem C8_poll_loop (f : Nat → Nat) (n : Nat)
    (hcont : ∀ i, i < n → pollContinue (f i) = true)
    (hstop : pollContinue (f n) = false) :
    pollWait f (n + 1) = some (f n % 256) ∧
    (∀ fuel, fuel ≤ n → pollWait f fuel = none) ∧
    (∀ st : Nat, pollContinue st = false ↔
      (st % 256 &&& BUSY_FLAG = 0 ∨ st % 256 = 255)) := by
  refine ⟨pollWait_stop n f hcont hstop, ?_, ?_⟩
  · intro fuel hf
    exact pollWait_none fuel f (fun i hi => hcont i (by omega))
  · intro st
    simp only [pollContinue, Bool.and_eq_false_iff, bne_eq_false_iff_eq, ne_eq,
      Bool.not_eq_true]

/-- Witness for C8: a stream whose first byte is busy (0x20) and whose second
is ready (0x00) stops after exactly two reads. -/
theorem C8_poll_loop_witness :
    pollWait (fun i => if i = 0 then 32 else 0) 2 = some 0 ∧
    pollWait (fun i => if i = 0 then 32 else 0) 1 = none := by
  have h := C8_poll_loop (fun i => if i = 0 then 32 else 0) 1
    (by intro i hi; interval_cases i; rfl) (by rfl)
  exact ⟨h.1, h.2.1 1 (by omega)⟩

/-- Claim C9: requesting RAW does not bypass the error validation — a status
byte with the integrity or saturation bit set yields the NaN sentinel even for
the RAW unit, because the status check precedes the RAW branch. -/
theorem C9_raw_still_checks_status (s : MPRState) (status b1 b2 b3 : Nat)
    (hlt : status < 256)
    (h : status &&& INTEGRITY_FLAG ≠ 0 ∨ status &&& MATH_SAT_FLAG ≠ 0) :
    readPressureFrom s status b1 b2 b3 Pressure_Units.RAW = none := by
  have hm : status % 256 = status := Nat.mod_eq_of_lt hlt
  simp only [readPressureFrom, hm]
  rw [if_pos h]

/-- Witness for C9: a RAW read with the math-saturation bit set (status 0x01)
returns the sentinel. -/
theorem C9_raw_still_checks_status_witness :
    readPressureFrom (mkMicroPressure (-1) (-1) 0 25 'A') 1 9 9 9
      Pressure_Units.RAW = none :=
  C9_raw_still_checks_status (mkMicroPressure (-1) (-1) 0 25 'A') 1 9 9 9
    (by omega) (Or.inr (by decide))

/-- Claim C10: `setZero` does not validate its argument against `maxCounts`:
for the input `maxCounts + 1 = 15099495` on the default state, the `uint32_t`
subtraction wraps, producing `deltaCounts = 2^32 - 1` (an enormous positive
span, over 4 billion) and a near-zero scale factor `25/4294967295`, rather
than a negative span or an error. -/
theorem C10_setZero_wraparound :
    15099495 > (mkMicroPressure (-1) (-1) 0 25 'A').maxCounts ∧
    (setZero (mkMicroPressure (-1) (-1) 0 25 'A') 15099495).deltaCounts =
      4294967295 ∧
    (setZero (mkMicroPressure (-1) (-1) 0 25 'A') 15099495).deltaCounts =
      ((mkMicroPressure (-1) (-1) 0 25 'A').maxCounts + u32 - 15099495) % u32 ∧
    (setZero (mkMicroPressure (-1) (-1) 0 25 'A') 15099495).calFactor =
      25 / 4294967295 ∧
    (setZero (mkMicroPressure (-1) (-1) 0 25 'A') 15099495).calFactor <
      1 / 100000000 ∧
    4000000000 < (setZero (mkMicroPressure (-1) (-1) 0 25 'A') 15099495).deltaCounts := by
  refine ⟨?_, ?_, ?_, ?_, ?_, ?_⟩ <;> norm_num [setZero, mkMicroPressure, u32]

end MPR
